import Mathlib

/-!
Verification development for `src/app-logic/web-channel.js` of the profiler
repository.  The file handles the WebChannel message exchange between
profiler.firefox.com and the browser: a one-off DOM event listener is
registered, an outgoing message is dispatched, and inbound
`WebChannelMessageToContent` events are examined until a terminal outcome
settles the pending promise.

The embedding below is shallow: JavaScript values are the inductive `JSVal`,
the DOM listener of `_registerOneOffListener` becomes the pure function
`listener` returning a `ListenerOutcome` (which effects the real listener
performs on an event), and the promise executor of `_sendMessageWithResponse`
together with the listener becomes the state-transition function `stepEvent`
on `ChannelState`.  The platform's `JSON.stringify` / `JSON.parse` pair used
by `_sendMessage` is modelled by `jsonStringify` / `jsonParse`.
-/

/-- A JavaScript value as far as this file's code can observe one: strings,
numbers (the protocol never produces fractional numbers, so integers
suffice), booleans, `null`, `undefined`, and plain objects as association
lists of named fields. -/
inductive JSVal where
  | str (s : String)
  | num (n : Int)
  | boolean (b : Bool)
  | null
  | undefined
  | obj (fields : List (String × JSVal))

/-- JavaScript strict equality `===` restricted to what this code compares.
Primitives compare by value.  Two object values are never identified: `===`
on objects is reference equality, and the source only ever compares against
string literals (`id === 'profiler.firefox.com'`,
`message.type === expectedResponse`), so the object/object case is
unreachable there. -/
def jsStrictEq : JSVal → JSVal → Bool
  | .str a, .str b => a == b
  | .num a, .num b => a == b
  | .boolean a, .boolean b => a == b
  | .null, .null => true
  | .undefined, .undefined => true
  | _, _ => false

/-- JavaScript truthiness, used by the `message &&` guard of the listener. -/
def jsTruthy : JSVal → Bool
  | .str s => !(s == "")
  | .num n => !(n == 0)
  | .boolean b => b
  | .null => false
  | .undefined => false
  | .obj _ => true

/-- The `typeof message === 'object'` test.  Note `typeof null` is
`'object'` in JavaScript; `null` is excluded in the source by the
truthiness guard, not by this test. -/
def typeofIsObject : JSVal → Bool
  | .obj _ => true
  | .null => true
  | _ => false

/-- The `typeof x === 'string'` test. -/
def JSVal.isString : JSVal → Bool
  | .str _ => true
  | _ => false

/-- Property access `v.k`: the first binding of the field in an object,
`undefined` when the field is absent or the value is not an object. -/
def getField (v : JSVal) (k : String) : JSVal :=
  match v with
  | .obj fields =>
    match fields.find? (fun kv => kv.1 == k) with
    | some kv => kv.2
    | none => .undefined
  | _ => .undefined

/-- The `detail` of an inbound `WebChannelMessageToContent` event, as the
listener destructures it: `const { id, message } = event.detail`. -/
structure EventDetail where
  id : JSVal
  message : JSVal

/-- The value passed to `reject`: either the original message object (the
remote-error path rejects with `message` itself) or the fresh
`new Error('A malformed WebChannel event was received.')`. -/
inductive RejectVal where
  | message (m : JSVal)
  | malformedEventError

/-- What one invocation of the listener does to its environment: whether it
called `window.removeEventListener` on itself, whether it called `reject`
and with which value, and whether it handed the message to the callback. -/
structure ListenerOutcome where
  removed : Bool
  rejectedWith : Option RejectVal
  delivered : Option JSVal

/-- The inner `listener` of `_registerOneOffListener`, as a pure function
from the event detail to the effects it performs.  Mirrors the source
control flow: the guarded block handles the string-`error` path (remove
listener, reject with the message) and the string-`type` path (hand the
message to the callback; remove the listener exactly when the callback
returns `true`); every other event — a mismatched channel id, a
non-object/absent message, or an object with neither a string `error` nor a
string `type` — falls through to `reject(new Error('A malformed WebChannel
event was received.'))` without removing the listener. -/
def listener (callback : JSVal → Bool) (ev : EventDetail) : ListenerOutcome :=
  if jsStrictEq ev.id (JSVal.str "profiler.firefox.com")
      && jsTruthy ev.message && typeofIsObject ev.message then
    let error := getField ev.message "error"
    let type := getField ev.message "type"
    if error.isString then
      { removed := true, rejectedWith := some (.message ev.message), delivered := none }
    else if type.isString then
      { removed := callback ev.message, rejectedWith := none, delivered := some ev.message }
    else
      { removed := false, rejectedWith := some .malformedEventError, delivered := none }
  else
    { removed := false, rejectedWith := some .malformedEventError, delivered := none }

/-- The state of a JavaScript promise.  `resolve` and `reject` only act on a
pending promise; on a settled one they are no-ops. -/
inductive PromiseState where
  | pending
  | resolved (v : JSVal)
  | rejected (e : RejectVal)

/-- Calling `resolve v`: settles a pending promise, no-op otherwise. -/
def promiseResolve : PromiseState → JSVal → PromiseState
  | .pending, v => .resolved v
  | s, _ => s

/-- Calling `reject e`: settles a pending promise, no-op otherwise. -/
def promiseReject : PromiseState → RejectVal → PromiseState
  | .pending, e => .rejected e
  | s, _ => s

/-- The observable state of one `_sendMessageWithResponse` request: whether
its listener is currently registered on `window`, and the state of the
promise it returned. -/
structure ChannelState where
  registered : Bool
  promise : PromiseState

/-- The `handleMessage` callback of `_sendMessageWithResponse`: it returns
`true` (which makes the listener deregister) exactly when
`message.type === expectedResponse`; in that case — and only then — it has
called `resolve(message)` first. -/
def handleMessage (expectedResponse : String) (message : JSVal) : Bool :=
  jsStrictEq (getField message "type") (JSVal.str expectedResponse)

/-- One inbound `WebChannelMessageToContent` event processed against a
request's state.  When the listener is no longer registered the event is not
observed at all.  Otherwise the listener's effects are applied: a `reject`
call settles a pending promise; on the callback path `handleMessage`
resolves with the message exactly when its type matches; `removed = true`
deregisters the listener. -/
def stepEvent (expectedResponse : String) (s : ChannelState)
    (ev : EventDetail) : ChannelState :=
  if s.registered then
    let o := listener (handleMessage expectedResponse) ev
    { registered := !o.removed,
      promise :=
        match o.rejectedWith with
        | some e => promiseReject s.promise e
        | none =>
          match o.delivered with
          | some m =>
            if handleMessage expectedResponse m then promiseResolve s.promise m
            else s.promise
          | none => s.promise }
  else s

/-- The state just after `_sendMessageWithResponse` has registered its
listener and dispatched the outgoing message: listener registered, promise
pending. -/
def initialChannelState : ChannelState :=
  { registered := true, promise := .pending }

/-- Process a sequence of inbound events in order. -/
def runEvents (expectedResponse : String) (s : ChannelState)
    (evs : List EventDetail) : ChannelState :=
  evs.foldl (stepEvent expectedResponse) s

/-- An event is terminal for a request when processing it settles the
promise: the listener either calls `reject` (remote error or malformed
event) or removes itself after `handleMessage` resolved (matching response
type). -/
def terminalEvent (expectedResponse : String) (ev : EventDetail) : Bool :=
  let o := listener (handleMessage expectedResponse) ev
  o.rejectedWith.isSome || o.removed

/-- The `MessageToBrowser` variants: the two outgoing message shapes. -/
inductive MessageToBrowser where
  | STATUS_QUERY
  | ENABLE_MENU_BUTTON

/-- The `type` field of each outgoing message variant. -/
def MessageToBrowser.typeName : MessageToBrowser → String
  | .STATUS_QUERY => "STATUS_QUERY"
  | .ENABLE_MENU_BUTTON => "ENABLE_MENU_BUTTON"

/-- An outgoing message as the JavaScript object `{ type: '...' }`. -/
def msgToJSVal (m : MessageToBrowser) : JSVal :=
  .obj [("type", .str m.typeName)]

/-- The argument record of `_sendMessageWithResponse`. -/
structure MessageRequest where
  message : MessageToBrowser
  expectedResponse : String

/-- The request `queryIsMenuButtonEnabled` makes: it sends
`{ type: 'STATUS_QUERY' }` and awaits a `'STATUS_RESPONSE'`. -/
def queryIsMenuButtonEnabledRequest : MessageRequest :=
  { message := .STATUS_QUERY, expectedResponse := "STATUS_RESPONSE" }

/-- What `queryIsMenuButtonEnabled` returns once its request resolves with
`response`: the `menuButtonIsEnabled` field of the response. -/
def queryIsMenuButtonEnabledResult (response : JSVal) : JSVal :=
  getField response "menuButtonIsEnabled"

/-- JSON string escaping as `JSON.stringify` performs it on the strings this
protocol produces: quote and backslash are escaped (no control characters
occur in the protocol's strings). -/
def jsonQuote (s : String) : String :=
  "\"" ++ s.data.foldl
    (fun acc c =>
      if c == '"' then acc ++ "\\\""
      else if c == '\\' then acc ++ "\\\\"
      else acc.push c) "" ++ "\""

mutual

/-- The platform `JSON.stringify`, modelled on `JSVal`.  A top-level
`undefined` is rendered `"null"` here; `_sendMessage` only ever stringifies
an object, so that case is unreachable from the source. -/
def jsonStringify : JSVal → String
  | .str s => jsonQuote s
  | .num n => toString n
  | .boolean b => if b then "true" else "false"
  | .null => "null"
  | .undefined => "null"
  | .obj fields => "\x7b" ++ jsonStringifyFields fields ++ "\x7d"

/-- Object members, comma-separated; fields holding `undefined` are omitted,
as `JSON.stringify` omits them. -/
def jsonStringifyFields : List (String × JSVal) → String
  | [] => ""
  | (_, .undefined) :: rest => jsonStringifyFields rest
  | (k, v) :: rest =>
    match rest with
    | [] => jsonQuote k ++ ":" ++ jsonStringify v
    | _ :: _ =>
      match jsonStringifyFields rest with
      | "" => jsonQuote k ++ ":" ++ jsonStringify v
      | tail => jsonQuote k ++ ":" ++ jsonStringify v ++ "," ++ tail

end

/-- Parse the body of a JSON string literal (the opening quote already
consumed) up to its closing quote.  Escape sequences are not needed by this
protocol and make the parse fail. -/
def parseStringBody : List Char → Option (String × List Char)
  | [] => none
  | c :: rest =>
    if c == '"' then some ("", rest)
    else if c == '\\' then none
    else
      match parseStringBody rest with
      | some (s, r) => some (String.mk (c :: s.data), r)
      | none => none

/-- Parse a non-empty run of decimal digits. -/
def parseNatCs (cs : List Char) : Option (Nat × List Char) :=
  let ds := cs.takeWhile Char.isDigit
  let r := cs.dropWhile Char.isDigit
  if ds.isEmpty then none
  else some (ds.foldl (fun a c => a * 10 + (c.toNat - 48)) 0, r)

mutual

/-- A recursive-descent parser for the JSON fragment `jsonStringify`
emits (strings, integers, booleans, `null`, objects), modelling the
platform `JSON.parse` on this protocol's payloads.  `fuel` bounds nesting
depth. -/
def parseVal : Nat → List Char → Option (JSVal × List Char)
  | 0, _ => none
  | _ + 1, [] => none
  | fuel + 1, c :: rest =>
    if c == '"' then
      match parseStringBody rest with
      | some (s, r) => some (.str s, r)
      | none => none
    else if c == 't' then
      match rest with
      | 'r' :: 'u' :: 'e' :: r => some (.boolean true, r)
      | _ => none
    else if c == 'f' then
      match rest with
      | 'a' :: 'l' :: 's' :: 'e' :: r => some (.boolean false, r)
      | _ => none
    else if c == 'n' then
      match rest with
      | 'u' :: 'l' :: 'l' :: r => some (.null, r)
      | _ => none
    else if c == '\x7b' then
      match rest with
      | '\x7d' :: r => some (.obj [], r)
      | _ =>
        match parseMembers fuel rest with
        | some (fields, r) => some (.obj fields, r)
        | none => none
    else if c == '-' then
      match parseNatCs rest with
      | some (n, r) => some (.num (-(n : Int)), r)
      | none => none
    else if c.isDigit then
      match parseNatCs (c :: rest) with
      | some (n, r) => some (.num (n : Int), r)
      | none => none
    else none

/-- Parse one or more `"key":value` members followed by the closing
brace. -/
def parseMembers : Nat → List Char → Option (List (String × JSVal) × List Char)
  | 0, _ => none
  | fuel + 1, cs =>
    match cs with
    | '"' :: rest =>
      match parseStringBody rest with
      | some (k, ':' :: rest2) =>
        match parseVal fuel rest2 with
        | some (v, ',' :: rest3) =>
          match parseMembers fuel rest3 with
          | some (kvs, r) => some ((k, v) :: kvs, r)
          | none => none
        | some (v, '\x7d' :: rest3) => some ([(k, v)], rest3)
        | _ => none
      | _ => none
    | _ => none

end

/-- The platform `JSON.parse`, modelled on the fragment this protocol uses:
the whole input must be consumed by one value. -/
def jsonParse (s : String) : Option JSVal :=
  match parseVal (s.length + 1) s.data with
  | some (v, []) => some v
  | _ => none

/-- The `CustomEvent` that `_sendMessage` dispatches on `window`: its event
name and its `detail` payload, a single serialized string. -/
structure DispatchedEvent where
  name : String
  detail : String

/-- The `_sendMessage` function: dispatches a `WebChannelMessageToChrome`
event whose `detail` is `JSON.stringify({ id: 'profiler.firefox.com',
message })`.  It is total: every outgoing message variant serializes. -/
def _sendMessage (message : MessageToBrowser) : DispatchedEvent :=
  { name := "WebChannelMessageToChrome",
    detail := jsonStringify
      (.obj [("id", .str "profiler.firefox.com"), ("message", msgToJSVal message)]) }

/-- Strict equality against a string literal holds exactly for that string
value (on objects `===` is reference equality, so it never equates an
object with a string). -/
theorem jsStrictEq_str_iff (a : JSVal) (s : String) :
    jsStrictEq a (JSVal.str s) = true ↔ a = JSVal.str s := by
  cases a <;> simp [jsStrictEq]

/-- Every invocation of the listener takes exactly one of three paths:
remote error (remove + reject with the message), callback delivery (remove
exactly when the callback answers `true`), or the fall-through malformed
rejection (no removal). -/
theorem listener_cases (cb : JSVal → Bool) (ev : EventDetail) :
    listener cb ev = ⟨true, some (.message ev.message), none⟩ ∨
    listener cb ev = ⟨cb ev.message, none, some ev.message⟩ ∨
    listener cb ev = ⟨false, some .malformedEventError, none⟩ := by
  unfold listener
  split
  · dsimp only
    split
    · exact Or.inl rfl
    · split
      · exact Or.inr (Or.inl rfl)
      · exact Or.inr (Or.inr rfl)
  · exact Or.inr (Or.inr rfl)

/-- An event that fails the guard — wrong channel id, or a message that is
falsy or not of object type — takes the fall-through path: no removal, a
malformed-event rejection, no delivery. -/
theorem listener_guard_false (cb : JSVal → Bool) (ev : EventDetail)
    (h : ev.id ≠ JSVal.str "profiler.firefox.com" ∨ jsTruthy ev.message = false ∨
      typeofIsObject ev.message = false) :
    listener cb ev = ⟨false, some .malformedEventError, none⟩ := by
  have hg : (jsStrictEq ev.id (JSVal.str "profiler.firefox.com")
      && jsTruthy ev.message && typeofIsObject ev.message) = false := by
    rcases h with h | h | h
    · have hid : jsStrictEq ev.id (JSVal.str "profiler.firefox.com") = false := by
        cases hq : jsStrictEq ev.id (JSVal.str "profiler.firefox.com")
        · rfl
        · exact absurd ((jsStrictEq_str_iff ev.id _).mp hq) h
      simp [hid]
    · simp [h]
    · simp [h]
  unfold listener
  rw [hg]
  rfl

/-- An in-channel object message with a string `error` field takes the
remote-error path. -/
theorem listener_error_path (cb : JSVal → Bool) (ev : EventDetail)
    (h1 : ev.id = JSVal.str "profiler.firefox.com")
    (h2 : jsTruthy ev.message = true) (h3 : typeofIsObject ev.message = true)
    (herr : (getField ev.message "error").isString = true) :
    listener cb ev = ⟨true, some (.message ev.message), none⟩ := by
  unfold listener
  rw [h1]
  simp [jsStrictEq, h2, h3, herr]

/-- An in-channel object message with no string `error` but a string `type`
is handed to the callback. -/
theorem listener_ok_path (cb : JSVal → Bool) (ev : EventDetail)
    (h1 : ev.id = JSVal.str "profiler.firefox.com")
    (h2 : jsTruthy ev.message = true) (h3 : typeofIsObject ev.message = true)
    (herr : (getField ev.message "error").isString = false)
    (hty : (getField ev.message "type").isString = true) :
    listener cb ev = ⟨cb ev.message, none, some ev.message⟩ := by
  unfold listener
  rw [h1]
  simp [jsStrictEq, h2, h3, herr, hty]

/-- An in-channel object message with neither a string `error` nor a string
`type` falls through to the malformed rejection, without removal. -/
theorem listener_malformed_path (cb : JSVal → Bool) (ev : EventDetail)
    (h1 : ev.id = JSVal.str "profiler.firefox.com")
    (h2 : jsTruthy ev.message = true) (h3 : typeofIsObject ev.message = true)
    (herr : (getField ev.message "error").isString = false)
    (hty : (getField ev.message "type").isString = false) :
    listener cb ev = ⟨false, some .malformedEventError, none⟩ := by
  unfold listener
  rw [h1]
  simp [jsStrictEq, h2, h3, herr, hty]

/-- `resolve` is a no-op on a settled promise. -/
theorem promiseResolve_of_ne_pending (p : PromiseState) (v : JSVal)
    (h : p ≠ PromiseState.pending) : promiseResolve p v = p := by
  cases p with
  | pending => exact absurd rfl h
  | resolved _ => rfl
  | rejected _ => rfl

/-- `reject` is a no-op on a settled promise. -/
theorem promiseReject_of_ne_pending (p : PromiseState) (e : RejectVal)
    (h : p ≠ PromiseState.pending) : promiseReject p e = p := by
  cases p with
  | pending => exact absurd rfl h
  | resolved _ => rfl
  | rejected _ => rfl

/-- An inbound event with a mismatched channel id and an otherwise valid
message payload. -/
def evBadId : EventDetail :=
  ⟨.str "example.com", .obj [("type", .str "STATUS_RESPONSE")]⟩

/-- An in-channel event whose object message has no `error` field and a
non-string `type` field. -/
def evNoType : EventDetail :=
  ⟨.str "profiler.firefox.com", .obj [("type", .num 123)]⟩

/-- An in-channel event carrying the successful menu-button status
response. -/
def evStatusTrue : EventDetail :=
  ⟨.str "profiler.firefox.com",
   .obj [("type", .str "STATUS_RESPONSE"), ("menuButtonIsEnabled", .boolean true)]⟩

/-- An in-channel event whose message carries both a string `error` field
and a string `type` field matching the expected response. -/
def evErrorAndType : EventDetail :=
  ⟨.str "profiler.firefox.com",
   .obj [("error", .str "No profiler WebChannel"), ("type", .str "STATUS_RESPONSE")]⟩

/-- An in-channel valid message whose type is not the expected response. -/
def evOtherType : EventDetail :=
  ⟨.str "profiler.firefox.com", .obj [("type", .str "ENABLE_MENU_BUTTON_DONE")]⟩

/-- Claim C1 (counterexample): an event with a mismatched channel id is not
treated silently — processing it from a pending request rejects the promise
with the malformed-event error, so "does not reject, no side effect" fails
at `evBadId`. -/
theorem C1_counterexample :
    (stepEvent "STATUS_RESPONSE" initialChannelState evBadId).promise =
      PromiseState.rejected RejectVal.malformedEventError ∧
    (stepEvent "STATUS_RESPONSE" initialChannelState evBadId).promise ≠
      PromiseState.pending := by
  have hcomp : (stepEvent "STATUS_RESPONSE" initialChannelState evBadId).promise =
      PromiseState.rejected RejectVal.malformedEventError := rfl
  refine ⟨hcomp, ?_⟩
  rw [hcomp]
  exact fun h => PromiseState.noConfusion h

/-- Claim C1 (amended): for every inbound event whose identifier does not
match the fixed channel id, or whose message payload is absent/falsy or not
of object type, the listener does not resolve and does not deregister
itself — it keeps listening — but it is not silent: it calls `reject` with
the malformed-event protocol error, rejecting a still-pending promise. -/
theorem C1_amended (expectedResponse : String) (s : ChannelState) (ev : EventDetail)
    (hreg : s.registered = true)
    (h : ev.id ≠ JSVal.str "profiler.firefox.com" ∨ jsTruthy ev.message = false ∨
      typeofIsObject ev.message = false) :
    (stepEvent expectedResponse s ev).registered = true ∧
    (stepEvent expectedResponse s ev).promise =
      promiseReject s.promise RejectVal.malformedEventError := by
  have hl := listener_guard_false (handleMessage expectedResponse) ev h
  simp [stepEvent, hreg, hl]

/-- Witness for the amended C1 at the concrete mismatched-id event. -/
theorem C1_amended_witness :
    (stepEvent "STATUS_RESPONSE" initialChannelState evBadId).registered = true ∧
    (stepEvent "STATUS_RESPONSE" initialChannelState evBadId).promise =
      promiseReject initialChannelState.promise RejectVal.malformedEventError :=
  C1_amended "STATUS_RESPONSE" initialChannelState evBadId rfl
    (Or.inl (by simp [evBadId]))

/-- Claim C2 (counterexample): the malformed-event path settles the promise
(rejection) while leaving the listener registered, so "no code path leaves
the listener registered after the promise settles" fails at `evNoType`. -/
theorem C2_counterexample :
    (stepEvent "STATUS_RESPONSE" initialChannelState evNoType).registered = true ∧
    (stepEvent "STATUS_RESPONSE" initialChannelState evNoType).promise ≠
      PromiseState.pending := by
  have hcomp : (stepEvent "STATUS_RESPONSE" initialChannelState evNoType).promise =
      PromiseState.rejected RejectVal.malformedEventError := rfl
  refine ⟨rfl, ?_⟩
  rw [hcomp]
  exact fun h => PromiseState.noConfusion h

/-- Claim C2 (amended): once the listener is deregistered, further events
have no effect at all; once the promise settles, no further event changes
its state (resolve/reject may be invoked again but are no-ops); and from a
pending registered state, any step that deregisters the listener also
settles the promise.  The original claim fails only in that the
malformed-event path settles the promise while leaving the listener
registered. -/
theorem C2_amended (expectedResponse : String) (s : ChannelState) (ev : EventDetail) :
    (s.registered = false → stepEvent expectedResponse s ev = s) ∧
    (s.promise ≠ PromiseState.pending →
      (stepEvent expectedResponse s ev).promise = s.promise) ∧
    (s.promise = PromiseState.pending → s.registered = true →
      (stepEvent expectedResponse s ev).registered = false →
      (stepEvent expectedResponse s ev).promise ≠ PromiseState.pending) := by
  refine ⟨fun h => by simp [stepEvent, h], fun h => ?_, fun hpend hreg hrem => ?_⟩
  · rcases listener_cases (handleMessage expectedResponse) ev with hl | hl | hl <;>
      by_cases hr : s.registered <;>
      simp [stepEvent, hr, hl, promiseReject_of_ne_pending _ _ h,
        promiseResolve_of_ne_pending _ _ h]
  · rcases listener_cases (handleMessage expectedResponse) ev with hl | hl | hl
    · simp [stepEvent, hreg, hl, hpend, promiseReject]
    · have hreg' : (stepEvent expectedResponse s ev).registered =
          !(handleMessage expectedResponse ev.message) := by
        simp [stepEvent, hreg, hl]
      rw [hreg'] at hrem
      have hcb : handleMessage expectedResponse ev.message = true := by
        cases hq : handleMessage expectedResponse ev.message
        · rw [hq] at hrem; exact absurd hrem (by simp)
        · rfl
      simp [stepEvent, hreg, hl, hcb, hpend, promiseResolve]
    · have hreg' : (stepEvent expectedResponse s ev).registered = true := by
        simp [stepEvent, hreg, hl]
      rw [hreg'] at hrem
      exact absurd hrem (by simp)

/-- Witness for the amended C2: its three conditional parts discharged at
concrete states and events. -/
theorem C2_amended_witness :
    stepEvent "STATUS_RESPONSE" ⟨false, PromiseState.pending⟩ evNoType =
      ⟨false, PromiseState.pending⟩ ∧
    (stepEvent "STATUS_RESPONSE" ⟨true, PromiseState.resolved JSVal.null⟩ evNoType).promise =
      PromiseState.resolved JSVal.null ∧
    (stepEvent "STATUS_RESPONSE" initialChannelState evStatusTrue).promise ≠
      PromiseState.pending :=
  ⟨(C2_amended "STATUS_RESPONSE" ⟨false, PromiseState.pending⟩ evNoType).1 rfl,
   (C2_amended "STATUS_RESPONSE" ⟨true, PromiseState.resolved JSVal.null⟩ evNoType).2.1
     (fun h => PromiseState.noConfusion h),
   (C2_amended "STATUS_RESPONSE" initialChannelState evStatusTrue).2.2 rfl rfl rfl⟩

/-- Claim C3 (counterexample): the event `{ type: 123 }` with no error field
does reject with the malformed-event error, but the listener is not
deregistered — it stays registered, so the "deregisters the listener"
half of the claim fails. -/
theorem C3_counterexample :
    (stepEvent "STATUS_RESPONSE" initialChannelState evNoType).promise =
      PromiseState.rejected RejectVal.malformedEventError ∧
    ¬ (stepEvent "STATUS_RESPONSE" initialChannelState evNoType).registered = false := by
  refine ⟨rfl, ?_⟩
  have hcomp : (stepEvent "STATUS_RESPONSE" initialChannelState evNoType).registered =
      true := rfl
  rw [hcomp]
  exact fun h => Bool.noConfusion h

/-- Claim C3 (amended): for every in-channel event whose object message
lacks both a string `error` and a string `type`, the listener rejects the
pending promise with the generic malformed-event protocol error, but it
does not deregister itself: the listener stays registered. -/
theorem C3_amended (expectedResponse : String) (s : ChannelState) (ev : EventDetail)
    (hreg : s.registered = true) (hpend : s.promise = PromiseState.pending)
    (h1 : ev.id = JSVal.str "profiler.firefox.com")
    (h2 : jsTruthy ev.message = true) (h3 : typeofIsObject ev.message = true)
    (herr : (getField ev.message "error").isString = false)
    (hty : (getField ev.message "type").isString = false) :
    (stepEvent expectedResponse s ev).promise =
      PromiseState.rejected RejectVal.malformedEventError ∧
    (stepEvent expectedResponse s ev).registered = true := by
  have hl := listener_malformed_path (handleMessage expectedResponse) ev h1 h2 h3 herr hty
  simp [stepEvent, hreg, hl, hpend, promiseReject]

/-- Witness for the amended C3 at the concrete `{ type: 123 }` event. -/
theorem C3_amended_witness :
    (stepEvent "STATUS_RESPONSE" initialChannelState evNoType).promise =
      PromiseState.rejected RejectVal.malformedEventError ∧
    (stepEvent "STATUS_RESPONSE" initialChannelState evNoType).registered = true :=
  C3_amended "STATUS_RESPONSE" initialChannelState evNoType rfl rfl rfl rfl rfl rfl rfl

/-- Claim C4 (confirmed): for every valid inbound message — matching channel
id, truthy object payload, string `type`, no string `error` — a mismatching
`type` leaves the request state entirely unchanged (keep listening, not
terminal), while a `type` equal to the expected response deregisters the
listener and resolves the pending promise with that exact message object. -/
theorem C4_valid_message (expectedResponse : String) (s : ChannelState)
    (ev : EventDetail) (t : String)
    (hreg : s.registered = true) (hpend : s.promise = PromiseState.pending)
    (h1 : ev.id = JSVal.str "profiler.firefox.com")
    (h2 : jsTruthy ev.message = true) (h3 : typeofIsObject ev.message = true)
    (herr : (getField ev.message "error").isString = false)
    (hty : getField ev.message "type" = JSVal.str t) :
    (t ≠ expectedResponse → stepEvent expectedResponse s ev = s) ∧
    (t = expectedResponse →
      (stepEvent expectedResponse s ev).registered = false ∧
      (stepEvent expectedResponse s ev).promise = PromiseState.resolved ev.message) := by
  obtain ⟨r, p⟩ := s
  simp only at hreg hpend
  subst hreg
  subst hpend
  have htys : (getField ev.message "type").isString = true := by rw [hty]; rfl
  have hl := listener_ok_path (handleMessage expectedResponse) ev h1 h2 h3 herr htys
  have hhm : handleMessage expectedResponse ev.message = (t == expectedResponse) := by
    rw [handleMessage, hty]; rfl
  constructor
  · intro hne
    have hfalse : (t == expectedResponse) = false := by simp [hne]
    simp [stepEvent, hl, hhm, hfalse]
  · intro heq
    subst heq
    simp [stepEvent, hl, hhm, promiseResolve]

/-- Witness for C4: the non-matching valid message leaves the state intact;
the matching status response deregisters and resolves with the message. -/
theorem C4_valid_message_witness :
    stepEvent "STATUS_RESPONSE" initialChannelState evOtherType = initialChannelState ∧
    ((stepEvent "STATUS_RESPONSE" initialChannelState evStatusTrue).registered = false ∧
     (stepEvent "STATUS_RESPONSE" initialChannelState evStatusTrue).promise =
       PromiseState.resolved evStatusTrue.message) :=
  ⟨(C4_valid_message "STATUS_RESPONSE" initialChannelState evOtherType
      "ENABLE_MENU_BUTTON_DONE" rfl rfl rfl rfl rfl rfl rfl).1 (by decide),
   (C4_valid_message "STATUS_RESPONSE" initialChannelState evStatusTrue
      "STATUS_RESPONSE" rfl rfl rfl rfl rfl rfl rfl).2 rfl⟩

/-- Claim C5 (confirmed): an in-channel object message carrying a string
`error` field deregisters the listener, rejects the pending promise with a
value carrying the original message, and is terminal. -/
theorem C5_remote_error (expectedResponse : String) (s : ChannelState) (ev : EventDetail)
    (hreg : s.registered = true) (hpend : s.promise = PromiseState.pending)
    (h1 : ev.id = JSVal.str "profiler.firefox.com")
    (h2 : jsTruthy ev.message = true) (h3 : typeofIsObject ev.message = true)
    (herr : (getField ev.message "error").isString = true) :
    (stepEvent expectedResponse s ev).registered = false ∧
    (stepEvent expectedResponse s ev).promise =
      PromiseState.rejected (RejectVal.message ev.message) ∧
    terminalEvent expectedResponse ev = true := by
  have hl := listener_error_path (handleMessage expectedResponse) ev h1 h2 h3 herr
  simp [stepEvent, terminalEvent, hreg, hl, hpend, promiseReject]

/-- Witness for C5 at a concrete remote-error event. -/
theorem C5_remote_error_witness :
    (stepEvent "STATUS_RESPONSE" initialChannelState evErrorAndType).registered = false ∧
    (stepEvent "STATUS_RESPONSE" initialChannelState evErrorAndType).promise =
      PromiseState.rejected (RejectVal.message evErrorAndType.message) ∧
    terminalEvent "STATUS_RESPONSE" evErrorAndType = true :=
  C5_remote_error "STATUS_RESPONSE" initialChannelState evErrorAndType rfl rfl rfl rfl rfl rfl

/-- Claim C10 (confirmed): on an in-channel object message the string
`error` check runs first: such a message is handled as a remote error —
never handed to the response callback, listener removed, pending promise
rejected with the message — even when its `type` equals the expected
response; a non-string `error` is ignored and, when `type` is a string,
classification falls through to the callback path. -/
theorem C10_error_precedence (expectedResponse : String) (s : ChannelState)
    (ev : EventDetail)
    (hreg : s.registered = true) (hpend : s.promise = PromiseState.pending)
    (h1 : ev.id = JSVal.str "profiler.firefox.com")
    (h2 : jsTruthy ev.message = true) (h3 : typeofIsObject ev.message = true) :
    ((getField ev.message "error").isString = true →
      (∀ cb : JSVal → Bool, (listener cb ev).delivered = none) ∧
      (stepEvent expectedResponse s ev).registered = false ∧
      (stepEvent expectedResponse s ev).promise =
        PromiseState.rejected (RejectVal.message ev.message)) ∧
    ((getField ev.message "error").isString = false →
      (getField ev.message "type").isString = true →
      ∀ cb : JSVal → Bool, (listener cb ev).delivered = some ev.message) := by
  constructor
  · intro herr
    refine ⟨fun cb => ?_, ?_, ?_⟩
    · rw [listener_error_path cb ev h1 h2 h3 herr]
    · have hl := listener_error_path (handleMessage expectedResponse) ev h1 h2 h3 herr
      simp [stepEvent, hreg, hl]
    · have hl := listener_error_path (handleMessage expectedResponse) ev h1 h2 h3 herr
      simp [stepEvent, hreg, hl, hpend, promiseReject]
  · intro herr hty cb
    rw [listener_ok_path cb ev h1 h2 h3 herr hty]

/-- Witness for C10: the message carrying both `error` and a matching `type`
is rejected as a remote error without callback delivery; the error-free
status response is delivered to the callback. -/
theorem C10_error_precedence_witness :
    ((listener (fun _ => false) evErrorAndType).delivered = none ∧
     (stepEvent "STATUS_RESPONSE" initialChannelState evErrorAndType).registered = false ∧
     (stepEvent "STATUS_RESPONSE" initialChannelState evErrorAndType).promise =
       PromiseState.rejected (RejectVal.message evErrorAndType.message)) ∧
    (listener (fun _ => false) evStatusTrue).delivered = some evStatusTrue.message :=
  ⟨(let A := (C10_error_precedence "STATUS_RESPONSE" initialChannelState evErrorAndType
      rfl rfl rfl rfl rfl).1 rfl
    ⟨A.1 (fun _ => false), A.2.1, A.2.2⟩),
   (C10_error_precedence "STATUS_RESPONSE" initialChannelState evStatusTrue
      rfl rfl rfl rfl rfl).2 rfl rfl (fun _ => false)⟩

/-- Claim C6 (confirmed): `queryIsMenuButtonEnabled` sends the
`STATUS_QUERY` outgoing message and awaits a `STATUS_RESPONSE`; on the
inbound event `{ type: 'STATUS_RESPONSE', menuButtonIsEnabled: true }` the
pending request resolves with that message, and the function's result —
the response's `menuButtonIsEnabled` field — is `true`. -/
theorem C6_queryIsMenuButtonEnabled :
    queryIsMenuButtonEnabledRequest.message = MessageToBrowser.STATUS_QUERY ∧
    msgToJSVal queryIsMenuButtonEnabledRequest.message =
      JSVal.obj [("type", JSVal.str "STATUS_QUERY")] ∧
    queryIsMenuButtonEnabledRequest.expectedResponse = "STATUS_RESPONSE" ∧
    (stepEvent queryIsMenuButtonEnabledRequest.expectedResponse initialChannelState
      evStatusTrue).promise = PromiseState.resolved evStatusTrue.message ∧
    queryIsMenuButtonEnabledResult evStatusTrue.message = JSVal.boolean true :=
  ⟨rfl, rfl, rfl, rfl, rfl⟩

/-- Claim C7 (confirmed): for each outgoing message variant, serializing
with the encoder of `_sendMessage` and re-wrapping the deserialized payload
as an inbound event detail yields a message the listener classifies as
valid (it is handed to the callback) whose `type` field equals the original
variant's type. -/
theorem C7_wire_roundtrip (m : MessageToBrowser) :
    ∃ d : JSVal, jsonParse (_sendMessage m).detail = some d ∧
      (listener (fun _ => false)
        ⟨getField d "id", getField d "message"⟩).delivered = some (msgToJSVal m) ∧
      getField (msgToJSVal m) "type" = JSVal.str m.typeName := by
  cases m
  · exact ⟨.obj [("id", .str "profiler.firefox.com"),
      ("message", .obj [("type", .str "STATUS_QUERY")])], rfl, rfl, rfl⟩
  · exact ⟨.obj [("id", .str "profiler.firefox.com"),
      ("message", .obj [("type", .str "ENABLE_MENU_BUTTON")])], rfl, rfl, rfl⟩

/-- Claim C8 (confirmed): every outgoing message is dispatched on the event
name `WebChannelMessageToChrome` with a single serialized string payload
that decodes to `{ id: 'profiler.firefox.com', message: <the message> }`;
the encoder is a total function, so no variant has a failure path. -/
theorem C8_dispatch (m : MessageToBrowser) :
    (_sendMessage m).name = "WebChannelMessageToChrome" ∧
    jsonParse (_sendMessage m).detail =
      some (JSVal.obj [("id", JSVal.str "profiler.firefox.com"),
        ("message", msgToJSVal m)]) := by
  cases m
  · exact ⟨rfl, rfl⟩
  · exact ⟨rfl, rfl⟩

/-- A non-terminal event leaves the request state exactly as it was. -/
theorem stepEvent_of_not_terminal (expectedResponse : String) (s : ChannelState)
    (ev : EventDetail) (h : terminalEvent expectedResponse ev = false) :
    stepEvent expectedResponse s ev = s := by
  obtain ⟨r, p⟩ := s
  rcases listener_cases (handleMessage expectedResponse) ev with hl | hl | hl
  · simp only [terminalEvent, hl] at h
    simp at h
  · have hcb : handleMessage expectedResponse ev.message = false := by
      simp only [terminalEvent, hl] at h
      simpa using h
    by_cases hr : r
    · simp [stepEvent, hr, hl, hcb]
    · simp [stepEvent, hr]
  · simp only [terminalEvent, hl] at h
    simp at h

/-- Claim C9 (confirmed): the promise settles only when the listener
processes a terminal event; over any sequence of non-terminal events the
request state — pending promise, registered listener — is unchanged, so
with no terminal event ever delivered the promise stays pending forever (no
timeout or cancellation path exists in `stepEvent`); conversely processing
a terminal event from the initial state settles the promise. -/
theorem C9_no_timeout (expectedResponse : String) (evs : List EventDetail)
    (h : ∀ e ∈ evs, terminalEvent expectedResponse e = false) :
    runEvents expectedResponse initialChannelState evs = initialChannelState ∧
    ∀ ev : EventDetail, terminalEvent expectedResponse ev = true →
      (stepEvent expectedResponse initialChannelState ev).promise ≠
        PromiseState.pending := by
  constructor
  · revert h
    induction evs with
    | nil => intro _; rfl
    | cons e rest ih =>
      intro h
      have he : terminalEvent expectedResponse e = false := h e (by simp)
      have hrest : ∀ x ∈ rest, terminalEvent expectedResponse x = false :=
        fun x hx => h x (by simp [hx])
      simp only [runEvents, List.foldl_cons]
      rw [stepEvent_of_not_terminal _ _ _ he]
      exact ih hrest
  · intro ev hterm hc
    rcases listener_cases (handleMessage expectedResponse) ev with hl | hl | hl
    · have hp : (stepEvent expectedResponse initialChannelState ev).promise =
          PromiseState.rejected (RejectVal.message ev.message) := by
        simp [stepEvent, initialChannelState, hl, promiseReject]
      rw [hp] at hc
      exact PromiseState.noConfusion hc
    · have hcb : handleMessage expectedResponse ev.message = true := by
        simp only [terminalEvent, hl] at hterm
        simpa using hterm
      have hp : (stepEvent expectedResponse initialChannelState ev).promise =
          PromiseState.resolved ev.message := by
        simp [stepEvent, initialChannelState, hl, hcb, promiseResolve]
      rw [hp] at hc
      exact PromiseState.noConfusion hc
    · have hp : (stepEvent expectedResponse initialChannelState ev).promise =
          PromiseState.rejected RejectVal.malformedEventError := by
        simp [stepEvent, initialChannelState, hl, promiseReject]
      rw [hp] at hc
      exact PromiseState.noConfusion hc

/-- Witness for C9: two non-matching valid messages leave the request
pending and listening; the matching status response settles it. -/
theorem C9_no_timeout_witness :
    runEvents "STATUS_RESPONSE" initialChannelState [evOtherType, evOtherType] =
      initialChannelState ∧
    (stepEvent "STATUS_RESPONSE" initialChannelState evStatusTrue).promise ≠
      PromiseState.pending :=
  ⟨(C9_no_timeout "STATUS_RESPONSE" [evOtherType, evOtherType]
      (by intro e he; simp at he; subst he; rfl)).1,
   (C9_no_timeout "STATUS_RESPONSE" [evOtherType, evOtherType]
      (by intro e he; simp at he; subst he; rfl)).2
     evStatusTrue rfl⟩
